import Mathlib

/-!
Verification of the book reading-library application: a shallow embedding of
the date utilities (src/utils/date_utils.py) and the database manager
(src/database/manager.py) over the data model (src/models/*.py), together
with proofs of the specification's testable properties.
-/

set_option maxRecDepth 4096

/-- A calendar date (models Python `datetime.date`). -/
structure Date where
  year : Nat
  month : Nat
  day : Nat
deriving DecidableEq, Repr

/-- Book type enumeration (src/models/enums.py `BookType`). -/
inductive BookType where
  | physical
  | ebook
  | audiobook
deriving DecidableEq, Repr

/-- Reading status enumeration (src/models/enums.py `ReadingStatus`). -/
inductive ReadingStatus where
  | toRead
  | reading
  | completed
  | abandoned
deriving DecidableEq, Repr

/-- Note type enumeration (src/models/enums.py `NoteType`). -/
inductive NoteType where
  | review
  | highlight
  | thought
  | quote
deriving DecidableEq, Repr

/-! ## Date utilities (src/utils/date_utils.py)

`parse_date_input` delegates to the external `dateutil` parser; the wrapper
itself rejects empty or whitespace-only input and converts any parser
exception into `None`.  We model the external parser for the ISO
`YYYY-MM-DD` format exercised by the specification; every other shape of
input makes it fail, which the wrapper turns into `none`.
-/

/-- Whitespace test for Python `str.strip`. -/
def isSpaceChar (c : Char) : Bool :=
  c == ' ' || c == '\t' || c == '\n' || c == '\r' || c == '\x0b' || c == '\x0c'

/-- Drop leading whitespace from a character list. -/
def dropSpaces (l : List Char) : List Char :=
  l.dropWhile isSpaceChar

/-- Model of Python `str.strip`: remove leading and trailing whitespace. -/
def strip (s : String) : String :=
  ⟨(dropSpaces (dropSpaces s.data.reverse).reverse)⟩

/-- Split a character list on the dash character (for ISO dates). -/
def splitOnDash : List Char → List (List Char)
  | [] => [[]]
  | c :: rest =>
    let r := splitOnDash rest
    if c == '-' then [] :: r
    else
      match r with
      | [] => [[c]]
      | p :: ps => (c :: p) :: ps

/-- Numeric value of a decimal digit character, `none` otherwise. -/
def digitVal (c : Char) : Option Nat :=
  if '0' ≤ c && c ≤ '9' then some (c.toNat - 48) else none

/-- Interpret a nonempty all-digit character list as a natural number. -/
def toNatChars : List Char → Option Nat
  | [] => none
  | l => go l 0
where
  go : List Char → Nat → Option Nat
    | [], acc => some acc
    | c :: cs, acc =>
      match digitVal c with
      | some d => go cs (acc * 10 + d)
      | none => none

/-- Gregorian leap-year test. -/
def isLeapYear (y : Nat) : Bool :=
  (y % 4 == 0 && y % 100 != 0) || y % 400 == 0

/-- Number of days in a month of a given year. -/
def daysInMonth (y m : Nat) : Nat :=
  if m == 2 then (if isLeapYear y then 29 else 28)
  else if m == 4 || m == 6 || m == 9 || m == 11 then 30
  else 31

/-- A year/month/day triple denotes a real calendar date. -/
def validDate (y m d : Nat) : Bool :=
  1 ≤ m && m ≤ 12 && 1 ≤ d && d ≤ daysInMonth y m

/-- Model of the external best-effort date parser (`dateutil.parser.parse`)
for the ISO `YYYY-MM-DD` format that the specification's examples exercise;
any input it cannot interpret yields `none` (the wrapper catches the
exception the real parser would raise). -/
def dateutil_parse (s : String) : Option Date :=
  match splitOnDash s.data with
  | [ys, ms, ds] =>
    match toNatChars ys, toNatChars ms, toNatChars ds with
    | some y, some m, some d =>
      if validDate y m d then some ⟨y, m, d⟩ else none
    | _, _, _ => none
  | _ => none

/-- `parse_date_input` (src/utils/date_utils.py lines 11-47): empty or
whitespace-only input yields `none`; otherwise the stripped text goes to the
external parser and any failure becomes `none`.  The function is total: bad
input never raises. -/
def parse_date_input (date_string : String) : Option Date :=
  if date_string = "" || strip date_string = "" then none
  else dateutil_parse (strip date_string)

/-- Zero-pad a number to two digits (Python `strftime` `%m`, `%d`). -/
def pad2 (n : Nat) : String :=
  if n < 10 then "0" ++ toString n else toString n

/-- Zero-pad a number to four digits (Python `strftime` `%Y`). -/
def pad4 (n : Nat) : String :=
  if n < 10 then "000" ++ toString n
  else if n < 100 then "00" ++ toString n
  else if n < 1000 then "0" ++ toString n
  else toString n

/-- Zeller's congruence: day of week with 0 = Saturday, 1 = Sunday,
2 = Monday, and so on (models the weekday lookup behind `strftime` `%a`). -/
def zellerH (dt : Date) : Nat :=
  let m := if dt.month < 3 then dt.month + 12 else dt.month
  let y := if dt.month < 3 then dt.year - 1 else dt.year
  let K := y % 100
  let J := y / 100
  (dt.day + (13 * (m + 1)) / 5 + K + K / 4 + J / 4 + 5 * J) % 7

/-- Weekday abbreviation table indexed by Zeller's value. -/
def weekdayAbbrev (h : Nat) : String :=
  match h with
  | 0 => "Sat"
  | 1 => "Sun"
  | 2 => "Mon"
  | 3 => "Tue"
  | 4 => "Wed"
  | 5 => "Thu"
  | _ => "Fri"

/-- `format_date_for_display` (src/utils/date_utils.py lines 50-62): `None`
renders as the empty string, a date as `YYYY-MM-DD (Weekday abbreviation)`
via `strftime` with format string `%Y-%m-%d (%a)`. -/
def format_date_for_display (date_obj : Option Date) : String :=
  match date_obj with
  | none => ""
  | some d =>
    pad4 d.year ++ "-" ++ pad2 d.month ++ "-" ++ pad2 d.day ++
      " (" ++ weekdayAbbrev (zellerH d) ++ ")"

/-- `validate_date_input` (src/utils/date_utils.py lines 65-75). -/
def validate_date_input (date_string : String) : Bool :=
  (parse_date_input date_string).isSome

/-- Rata die day number (proleptic Gregorian, day 1 = 0001-01-01, a Monday):
an independent day-of-week reference used to check Zeller's congruence. -/
def rataDie (dt : Date) : Nat :=
  let y := dt.year - 1
  let adj := if dt.month ≤ 2 then 0 else (if isLeapYear dt.year then 1 else 2)
  365 * y + y / 4 - y / 100 + y / 400 + (367 * dt.month - 362) / 12 + dt.day - adj

/-! ## Data model (src/models/book.py, reading_session.py, note.py)

Fields irrelevant to behaviour (the `added_date`, `last_modified` and
`created_date` wall-clock timestamps) are omitted; every field the manager's
logic reads or writes is present. -/

/-- A row of the `books` table (src/models/book.py). -/
structure Book where
  id : Nat
  title : String
  author : String
  book_type : BookType
  isbn : Option String
  publisher : Option String
  publication_year : Option Int
  pages : Option Int
  status : ReadingStatus
deriving DecidableEq, Repr

/-- A row of the `reading_sessions` table (src/models/reading_session.py);
`end_date = none` means the session is currently open. -/
structure ReadingSession where
  id : Nat
  book_id : Nat
  start_date : Date
  end_date : Option Date
  session_notes : Option String
deriving DecidableEq, Repr

/-- A row of the `notes` table (src/models/note.py). -/
structure Note where
  id : Nat
  book_id : Nat
  note_type : NoteType
  title : Option String
  content : String
  page_number : Option Int
deriving DecidableEq, Repr

/-- The persistent store: the three tables in insertion (rowid) order plus
the autoincrement counters.  SQLite returns unordered query results in rowid
order, so `.first()` on an unordered query is the first list element that
matches. -/
structure LibState where
  books : List Book
  sessions : List ReadingSession
  notes : List Note
  next_book_id : Nat
  next_session_id : Nat
  next_note_id : Nat
deriving DecidableEq, Repr

/-- The freshly created database: empty tables (src/database/manager.py
`__init__` / `Base.metadata.create_all`). -/
def initState : LibState :=
  ⟨[], [], [], 1, 1, 1⟩

/-- Errors surfaced by the manager: the `IntegrityError` the database raises
on a UNIQUE violation at commit, and the `ValueError` raised for an
unparseable date string. -/
inductive DBError where
  | integrityError
  | valueError (msg : String)
deriving DecidableEq, Repr

/-- The open-session test used by the manager's queries:
`ReadingSession.book_id == book_id, ReadingSession.end_date.is_(None)`. -/
def isOpenFor (bid : Nat) (r : ReadingSession) : Bool :=
  r.book_id == bid && r.end_date.isNone

/-- First open session of a book, in rowid order (`query(...).first()`). -/
def findFirstOpen (l : List ReadingSession) (bid : Nat) : Option ReadingSession :=
  l.find? (isOpenFor bid)

/-- Mutate the first open session of a book in place, as the ORM does after
`query(...).first()`; no match leaves the table unchanged. -/
def updateFirstOpen (l : List ReadingSession) (bid : Nat)
    (f : ReadingSession → ReadingSession) : List ReadingSession :=
  match l with
  | [] => []
  | r :: rs => if isOpenFor bid r then f r :: rs else r :: updateFirstOpen rs bid f

/-- Mutate the first book with a given id in place (`query(Book).filter
(Book.id == book_id).first()` followed by an attribute assignment). -/
def updateFirstBook (l : List Book) (bid : Nat) (f : Book → Book) : List Book :=
  match l with
  | [] => []
  | b :: bs => if b.id == bid then f b :: bs else b :: updateFirstBook bs bid f

/-- Number of open sessions a book owns. -/
def openCount (l : List ReadingSession) (bid : Nat) : Nat :=
  (l.filter (isOpenFor bid)).length

/-- Number of sessions (open or closed) a book owns. -/
def sessionCount (l : List ReadingSession) (bid : Nat) : Nat :=
  (l.filter (fun r => r.book_id == bid)).length

/-! ## Manager operations (src/database/manager.py) -/

/-- `add_book` (lines 41-58): constructs the row and commits.  The manager
itself validates nothing; the `UNIQUE` constraint on `books.isbn`
(src/models/book.py line 31) makes the commit raise `IntegrityError` when a
non-null ISBN is already present (SQL UNIQUE ignores NULLs), leaving the
store unchanged.  `status` defaults to To Read. -/
def add_book (s : LibState) (title author : String) (book_type : BookType)
    (isbn publisher : Option String) (publication_year pages : Option Int) :
    Except DBError (LibState × Book) :=
  if isbn.isSome && s.books.any (fun b => b.isbn == isbn) then
    .error .integrityError
  else
    let book : Book :=
      ⟨s.next_book_id, title, author, book_type, isbn, publisher,
        publication_year, pages, .toRead⟩
    .ok ({ s with books := s.books ++ [book],
                  next_book_id := s.next_book_id + 1 }, book)

/-- `update_book_status` (lines 70-76): sets the status of the first book
with the id, silently doing nothing when the id is absent. -/
def update_book_status (s : LibState) (book_id : Nat) (status : ReadingStatus) :
    LibState :=
  { s with books := updateFirstBook s.books book_id (fun b => { b with status := status }) }

/-- `delete_book` (lines 78-86): deletes the book row and, through the
`cascade="all, delete-orphan"` relationships (src/models/book.py lines
44-46), every reading session and note owned by it, returning `true`;
an absent id returns `false` and changes nothing. -/
def delete_book (s : LibState) (book_id : Nat) : LibState × Bool :=
  match s.books.find? (fun b => b.id == book_id) with
  | none => (s, false)
  | some _ =>
    ({ s with books := s.books.eraseP (fun b => b.id == book_id),
              sessions := s.sessions.filter (fun r => !(r.book_id == book_id)),
              notes := s.notes.filter (fun n => !(n.book_id == book_id)) }, true)

/-- The date-resolution prologue shared by `start_reading_session` and
`end_reading_session` (lines 109-115 and 151-157): a missing or empty
(Python-falsy) date string resolves to today; otherwise the string is
parsed and an unparseable one raises `ValueError`. -/
def resolve_date (today : Date) (date_str : Option String) : Except DBError Date :=
  match date_str with
  | none => .ok today
  | some str =>
    if str = "" then .ok today
    else
      match parse_date_input str with
      | some d => .ok d
      | none => .error (.valueError str)

/-- `start_reading_session` (lines 101-138): resolve the start date, close
the book's current open session (if any) at that date, insert one new open
session, set the book's status to Reading when the book exists (an absent id
skips only the status update), and return the new session. -/
def start_reading_session (s : LibState) (today : Date) (book_id : Nat)
    (start_date_str : Option String) : Except DBError (LibState × ReadingSession) :=
  match resolve_date today start_date_str with
  | .error e => .error e
  | .ok start_date =>
    let sessions1 := updateFirstOpen s.sessions book_id
      (fun r => { r with end_date := some start_date })
    let new_session : ReadingSession :=
      ⟨s.next_session_id, book_id, start_date, none, none⟩
    let books1 := updateFirstBook s.books book_id (fun b => { b with status := .reading })
    .ok ({ s with sessions := sessions1 ++ [new_session],
                  books := books1,
                  next_session_id := s.next_session_id + 1 }, new_session)

/-- The mutation `end_reading_session` applies to the open session it
found (manager.py lines 165-168): set the end date, and attach the notes
when they are non-empty (a Python-falsy `session_notes` is skipped). -/
def closeSession (end_date : Date) (session_notes : Option String)
    (r : ReadingSession) : ReadingSession :=
  match session_notes with
  | some n =>
    if n = "" then { r with end_date := some end_date }
    else { r with end_date := some end_date, session_notes := some n }
  | none => { r with end_date := some end_date }

/-- `end_reading_session` (lines 140-176): resolve the end date; when the
book has no open session the operation commits nothing and falls off the
end of the function (Python returns `None` on every path, so the caller
receives no signal).  When an open session exists, it is closed via
`closeSession`, and if `completed` the book's status becomes Completed. -/
def end_reading_session (s : LibState) (today : Date) (book_id : Nat)
    (end_date_str session_notes : Option String) (completed : Bool) :
    Except DBError LibState :=
  match resolve_date today end_date_str with
  | .error e => .error e
  | .ok end_date =>
    match findFirstOpen s.sessions book_id with
    | none => .ok s
    | some _ =>
      let books1 :=
        if completed then
          updateFirstBook s.books book_id (fun b => { b with status := .completed })
        else s.books
      .ok { s with sessions := updateFirstOpen s.sessions book_id
                     (closeSession end_date session_notes),
                   books := books1 }

/-- `add_note` (lines 186-200): constructs and inserts the note row. -/
def add_note (s : LibState) (book_id : Nat) (note_type : NoteType)
    (content : String) (title : Option String) (page_number : Option Int) :
    LibState × Note :=
  let note : Note := ⟨s.next_note_id, book_id, note_type, title, content, page_number⟩
  ({ s with notes := s.notes ++ [note], next_note_id := s.next_note_id + 1 }, note)

/-- `delete_note` (lines 209-217): deletes the note with the id and returns
`true`; an absent id returns `false` and changes nothing. -/
def delete_note (s : LibState) (note_id : Nat) : LibState × Bool :=
  match s.notes.find? (fun n => n.id == note_id) with
  | none => (s, false)
  | some _ => ({ s with notes := s.notes.eraseP (fun n => n.id == note_id) }, true)

/-! ## Operation sequences (for the store-wide invariant) -/

/-- One call into the manager, with its arguments (the wall-clock day a
session call would default to is carried as data). -/
inductive Op where
  | addBook (title author : String) (bt : BookType) (isbn publisher : Option String)
      (publication_year pages : Option Int)
  | startSession (today : Date) (book_id : Nat) (date_str : Option String)
  | endSession (today : Date) (book_id : Nat) (date_str notes : Option String)
      (completed : Bool)
  | updateStatus (book_id : Nat) (status : ReadingStatus)
  | addNote (book_id : Nat) (nt : NoteType) (content : String)
      (title : Option String) (page_number : Option Int)
  | deleteNote (note_id : Nat)
  | deleteBook (book_id : Nat)

/-- Apply one operation; an operation that raises commits nothing, so the
state is unchanged. -/
def applyOp (s : LibState) : Op → LibState
  | .addBook t a bt i p py pg =>
    match add_book s t a bt i p py pg with
    | .ok (s1, _) => s1
    | .error _ => s
  | .startSession today bid ds =>
    match start_reading_session s today bid ds with
    | .ok (s1, _) => s1
    | .error _ => s
  | .endSession today bid ds n c =>
    match end_reading_session s today bid ds n c with
    | .ok s1 => s1
    | .error _ => s
  | .updateStatus bid st => update_book_status s bid st
  | .addNote bid nt content t pn => (add_note s bid nt content t pn).1
  | .deleteNote nid => (delete_note s nid).1
  | .deleteBook bid => (delete_book s bid).1

/-- Apply a sequence of operations from left to right. -/
def applyOps (s : LibState) (ops : List Op) : LibState :=
  ops.foldl applyOp s

/-! ## Helper lemmas about the table operations -/

theorem updateFirstOpen_of_find?_none (l : List ReadingSession) (bid : Nat)
    (f : ReadingSession → ReadingSession) (h : findFirstOpen l bid = none) :
    updateFirstOpen l bid f = l := by
  induction l with
  | nil => rfl
  | cons a rs ih =>
    unfold findFirstOpen at h ih
    rw [List.find?_cons] at h
    cases ha : isOpenFor bid a with
    | true => rw [ha] at h; simp at h
    | false =>
      rw [ha] at h
      simp only [updateFirstOpen, ha, if_neg Bool.false_ne_true]
      rw [ih h]

theorem mem_updateFirstOpen_of_find? (l : List ReadingSession) (bid : Nat)
    (f : ReadingSession → ReadingSession) (r : ReadingSession)
    (h : findFirstOpen l bid = some r) : f r ∈ updateFirstOpen l bid f := by
  induction l with
  | nil => simp [findFirstOpen] at h
  | cons a rs ih =>
    unfold findFirstOpen at h ih
    rw [List.find?_cons] at h
    cases ha : isOpenFor bid a with
    | true =>
      rw [ha] at h
      simp only [Option.some.injEq] at h
      subst h
      simp [updateFirstOpen, ha]
    | false =>
      rw [ha] at h
      simp only [updateFirstOpen, ha]
      simp only [Bool.false_eq_true, if_false, List.mem_cons]
      exact Or.inr (ih h)

theorem openCount_nil (bid : Nat) : openCount [] bid = 0 := rfl

theorem openCount_cons (a : ReadingSession) (l : List ReadingSession) (bid : Nat) :
    openCount (a :: l) bid =
      (if isOpenFor bid a then 1 else 0) + openCount l bid := by
  cases ha : isOpenFor bid a <;>
    simp [openCount, List.filter_cons, ha, Nat.add_comm]

theorem openCount_append (l1 l2 : List ReadingSession) (bid : Nat) :
    openCount (l1 ++ l2) bid = openCount l1 bid + openCount l2 bid := by
  simp [openCount, List.filter_append]

theorem openCount_updateFirstOpen_le (l : List ReadingSession) (bid bid' : Nat)
    (f : ReadingSession → ReadingSession)
    (hf : ∀ r, ((f r).end_date).isNone = false) :
    openCount (updateFirstOpen l bid f) bid' ≤ openCount l bid' := by
  induction l with
  | nil => exact Nat.le_refl 0
  | cons a rs ih =>
    cases ha : isOpenFor bid a with
    | true =>
      have hfa : isOpenFor bid' (f a) = false := by
        simp [isOpenFor, hf a]
      simp only [updateFirstOpen, ha, if_true]
      rw [openCount_cons, openCount_cons, hfa]
      simp only [Bool.false_eq_true, if_false, Nat.zero_add]
      cases isOpenFor bid' a <;> simp
    | false =>
      simp only [updateFirstOpen, ha, Bool.false_eq_true, if_false]
      rw [openCount_cons, openCount_cons]
      exact Nat.add_le_add_left ih _

theorem openCount_updateFirstOpen_close (l : List ReadingSession) (bid : Nat)
    (f : ReadingSession → ReadingSession)
    (hf : ∀ r, ((f r).end_date).isNone = false)
    (h : openCount l bid ≤ 1) :
    openCount (updateFirstOpen l bid f) bid = 0 := by
  induction l with
  | nil => rfl
  | cons a rs ih =>
    cases ha : isOpenFor bid a with
    | true =>
      have hfa : isOpenFor bid (f a) = false := by
        simp [isOpenFor, hf a]
      rw [openCount_cons, ha, if_pos rfl] at h
      simp only [updateFirstOpen, ha, if_true]
      rw [openCount_cons, hfa]
      simp only [Bool.false_eq_true, if_false, Nat.zero_add]
      omega
    | false =>
      rw [openCount_cons, ha] at h
      simp only [Bool.false_eq_true, if_false, Nat.zero_add] at h
      simp only [updateFirstOpen, ha, Bool.false_eq_true, if_false]
      rw [openCount_cons, ha]
      simp only [Bool.false_eq_true, if_false, Nat.zero_add]
      exact ih h

theorem openCount_filter_le (l : List ReadingSession) (q : ReadingSession → Bool)
    (bid : Nat) : openCount (l.filter q) bid ≤ openCount l bid := by
  unfold openCount
  exact List.Sublist.length_le (List.Sublist.filter _ (List.filter_sublist l))

theorem sessionCount_append (l1 l2 : List ReadingSession) (bid : Nat) :
    sessionCount (l1 ++ l2) bid = sessionCount l1 bid + sessionCount l2 bid := by
  simp [sessionCount, List.filter_append]

theorem sessionCount_updateFirstOpen (l : List ReadingSession) (bid bid' : Nat)
    (f : ReadingSession → ReadingSession)
    (hf : ∀ r, (f r).book_id = r.book_id) :
    sessionCount (updateFirstOpen l bid f) bid' = sessionCount l bid' := by
  induction l with
  | nil => rfl
  | cons a rs ih =>
    cases ha : isOpenFor bid a with
    | true =>
      simp only [updateFirstOpen, ha, if_true]
      simp only [sessionCount, List.filter_cons, hf a]
      split <;> simp
    | false =>
      simp only [updateFirstOpen, ha, Bool.false_eq_true, if_false]
      simp only [sessionCount, List.filter_cons] at ih ⊢
      cases hb : a.book_id == bid' <;> simp [hb, ih]

theorem updateFirstBook_of_find?_none (l : List Book) (bid : Nat)
    (f : Book → Book) (h : l.find? (fun b => b.id == bid) = none) :
    updateFirstBook l bid f = l := by
  induction l with
  | nil => rfl
  | cons a bs ih =>
    rw [List.find?_cons] at h
    cases ha : (a.id == bid) with
    | true => rw [ha] at h; simp at h
    | false =>
      rw [ha] at h
      simp only [updateFirstBook, ha, Bool.false_eq_true, if_false]
      rw [ih h]

theorem find?_updateFirstBook (l : List Book) (bid : Nat) (f : Book → Book)
    (b : Book) (hid : ∀ x, (f x).id = x.id)
    (h : l.find? (fun x => x.id == bid) = some b) :
    (updateFirstBook l bid f).find? (fun x => x.id == bid) = some (f b) := by
  induction l with
  | nil => simp at h
  | cons a bs ih =>
    rw [List.find?_cons] at h
    cases ha : (a.id == bid) with
    | true =>
      rw [ha] at h
      simp only [Option.some.injEq] at h
      subst h
      have hfa : ((f a).id == bid) = true := by rw [hid a]; exact ha
      simp [updateFirstBook, ha, List.find?_cons, hfa]
    | false =>
      rw [ha] at h
      simp only [updateFirstBook, ha, Bool.false_eq_true, if_false]
      rw [List.find?_cons, ha]
      exact ih h

theorem filter_eraseP_of_single {α : Type} (p : α → Bool) (l : List α) (b : α)
    (h : l.filter p = [b]) : (l.eraseP p).filter p = [] := by
  induction l with
  | nil => simp at h
  | cons a rs ih =>
    cases ha : p a with
    | true =>
      rw [List.filter_cons, ha] at h
      simp only [if_true, List.cons.injEq] at h
      simp only [List.eraseP_cons, ha, cond_true]
      exact h.2
    | false =>
      rw [List.filter_cons, ha] at h
      simp only [Bool.false_eq_true, if_false] at h
      simp only [List.eraseP_cons, ha, cond_false, List.filter_cons,
        Bool.false_eq_true, if_false]
      exact ih h

theorem filter_not_then_filter {α : Type} (p : α → Bool) (l : List α) :
    (l.filter (fun x => !(p x))).filter p = [] := by
  induction l with
  | nil => rfl
  | cons a rs ih =>
    cases ha : p a <;> simp [List.filter_cons, ha, ih]

theorem closeSession_end_date (d : Date) (n : Option String) (r : ReadingSession) :
    (closeSession d n r).end_date = some d := by
  cases n with
  | none => rfl
  | some str =>
    simp only [closeSession]
    split <;> rfl

theorem closeSession_book_id (d : Date) (n : Option String) (r : ReadingSession) :
    (closeSession d n r).book_id = r.book_id := by
  cases n with
  | none => rfl
  | some str =>
    simp only [closeSession]
    split <;> rfl

theorem openCount_singleton (r : ReadingSession) (bid : Nat) :
    openCount [r] bid = if isOpenFor bid r then 1 else 0 := by
  rw [openCount_cons, openCount_nil, Nat.add_zero]

theorem applyOps_cons (s : LibState) (op : Op) (rest : List Op) :
    applyOps s (op :: rest) = applyOps (applyOp s op) rest := rfl

/-- One manager call preserves the at-most-one-open-session property. -/
theorem openInv_applyOp (s : LibState) (op : Op)
    (h : ∀ b, openCount s.sessions b ≤ 1) :
    ∀ bid, openCount (applyOp s op).sessions bid ≤ 1 := by
  intro bid
  cases op with
  | addBook t a bt i p py pg =>
    simp only [applyOp, add_book]
    by_cases hc : (i.isSome && s.books.any (fun b => b.isbn == i)) = true
    · rw [if_pos hc]
      exact h bid
    · rw [if_neg hc]
      exact h bid
  | updateStatus b st => exact h bid
  | addNote b nt c t pn => exact h bid
  | deleteNote nid =>
    simp only [applyOp, delete_note]
    split
    · exact h bid
    · exact h bid
  | deleteBook b =>
    simp only [applyOp, delete_book]
    split
    · exact h bid
    · exact le_trans (openCount_filter_le _ _ _) (h bid)
  | startSession today b ds =>
    simp only [applyOp, start_reading_session]
    cases hr : resolve_date today ds with
    | error e => exact h bid
    | ok d =>
      simp only
      rw [openCount_append, openCount_singleton]
      by_cases hb : bid = b
      · subst hb
        rw [openCount_updateFirstOpen_close s.sessions bid
          (fun r => { r with end_date := some d }) (fun r => rfl) (h bid)]
        simp [isOpenFor]
      · have h1 := openCount_updateFirstOpen_le s.sessions b bid
          (fun r => { r with end_date := some d }) (fun r => rfl)
        have h2 : isOpenFor bid (⟨s.next_session_id, b, d, none, none⟩ : ReadingSession) = false := by
          simp [isOpenFor]
          intro hc
          exact absurd hc.symm hb
        rw [h2]
        simp only [Bool.false_eq_true, if_false, Nat.add_zero]
        exact le_trans h1 (h bid)
  | endSession today b ds n c =>
    simp only [applyOp, end_reading_session]
    cases hr : resolve_date today ds with
    | error e => exact h bid
    | ok d =>
      cases hf : findFirstOpen s.sessions b with
      | none => simp only; exact h bid
      | some r =>
        simp only
        exact le_trans
          (openCount_updateFirstOpen_le s.sessions b bid (closeSession d n)
            (fun x => by rw [closeSession_end_date]; rfl))
          (h bid)

/-- C1: for every book, after any sequence of manager operations
(`add_book`, `start_reading_session`, `end_reading_session`,
`update_book_status`, `add_note`, `delete_note`, `delete_book`) applied to
the fresh database, the set of reading sessions owned by that book with a
null end date has size at most one. -/
theorem c1_open_session_invariant (ops : List Op) (bid : Nat) :
    openCount (applyOps initState ops).sessions bid ≤ 1 := by
  have key : ∀ (l : List Op) (s : LibState),
      (∀ b, openCount s.sessions b ≤ 1) →
      ∀ b, openCount (applyOps s l).sessions b ≤ 1 := by
    intro l
    induction l with
    | nil => intro s hs; exact hs
    | cons op rest ih =>
      intro s hs
      rw [applyOps_cons]
      exact ih (applyOp s op) (openInv_applyOp s op hs)
  exact key ops initState (fun b => Nat.zero_le 1) bid

/-- C2: starting a session on a book that already has an open session, with
a parseable start date, closes the old open session at the new start date,
creates exactly one new open session with that start date, sets the book's
status to Reading, and increases the book's session count by exactly one. -/
theorem c2_start_session_with_open
    (s : LibState) (today d : Date) (bid : Nat) (ds : String)
    (r : ReadingSession) (b : Book)
    (hd : parse_date_input ds = some d)
    (hr : findFirstOpen s.sessions bid = some r)
    (hb : s.books.find? (fun x => x.id == bid) = some b) :
    ∃ s1 ns, start_reading_session s today bid (some ds) = .ok (s1, ns) ∧
      ns.book_id = bid ∧ ns.start_date = d ∧ ns.end_date = none ∧
      ns ∈ s1.sessions ∧
      { r with end_date := some d } ∈ s1.sessions ∧
      s1.books.find? (fun x => x.id == bid) = some { b with status := .reading } ∧
      sessionCount s1.sessions bid = sessionCount s.sessions bid + 1 := by
  have hne : ¬ (ds = "") := by
    intro hcon
    subst hcon
    simp [parse_date_input] at hd
  have hres : resolve_date today (some ds) = .ok d := by
    simp [resolve_date, hne, hd]
  refine ⟨{ s with
      sessions := updateFirstOpen s.sessions bid
          (fun x => { x with end_date := some d }) ++
        [⟨s.next_session_id, bid, d, none, none⟩],
      books := updateFirstBook s.books bid (fun x => { x with status := .reading }),
      next_session_id := s.next_session_id + 1 },
    ⟨s.next_session_id, bid, d, none, none⟩, ?_, rfl, rfl, rfl, ?_, ?_, ?_, ?_⟩
  · unfold start_reading_session
    rw [hres]
  · exact List.mem_append_right _ (List.mem_singleton.mpr rfl)
  · exact List.mem_append_left _ (mem_updateFirstOpen_of_find? _ _ _ _ hr)
  · exact find?_updateFirstBook s.books bid _ b (fun x => rfl) hb
  · rw [sessionCount_append,
      sessionCount_updateFirstOpen s.sessions bid bid
        (fun x => { x with end_date := some d }) (fun x => rfl)]
    simp [sessionCount]

/-- Witness for C2: a store holding one book (id 1, status Reading) with one
open session started 2023-01-01; starting a new session on 2023-12-25. -/
theorem c2_witness : ∃ s1 ns,
    start_reading_session
      ⟨[⟨1, "Dune", "Frank Herbert", .physical, none, none, none, none, .reading⟩],
       [⟨1, 1, ⟨2023, 1, 1⟩, none, none⟩], [], 2, 2, 1⟩
      ⟨2024, 1, 1⟩ 1 (some "2023-12-25") = .ok (s1, ns) ∧
      ns.book_id = 1 ∧ ns.start_date = ⟨2023, 12, 25⟩ ∧ ns.end_date = none ∧
      ns ∈ s1.sessions ∧
      ({ id := 1, book_id := 1, start_date := ⟨2023, 1, 1⟩,
         end_date := some ⟨2023, 12, 25⟩, session_notes := none } : ReadingSession)
        ∈ s1.sessions ∧
      s1.books.find? (fun x => x.id == 1) =
        some ⟨1, "Dune", "Frank Herbert", .physical, none, none, none, none, .reading⟩ ∧
      sessionCount s1.sessions 1 =
        sessionCount [(⟨1, 1, ⟨2023, 1, 1⟩, none, none⟩ : ReadingSession)] 1 + 1 :=
  c2_start_session_with_open
    ⟨[⟨1, "Dune", "Frank Herbert", .physical, none, none, none, none, .reading⟩],
     [⟨1, 1, ⟨2023, 1, 1⟩, none, none⟩], [], 2, 2, 1⟩
    ⟨2024, 1, 1⟩ ⟨2023, 12, 25⟩ 1 "2023-12-25"
    ⟨1, 1, ⟨2023, 1, 1⟩, none, none⟩
    ⟨1, "Dune", "Frank Herbert", .physical, none, none, none, none, .reading⟩
    rfl (by decide) (by decide)

/-- C3 counterexample: ending the single open session of the first store
and ending nothing on the second store return the identical value, so the
return value of `end_reading_session` carries no no-op signal the caller
could distinguish (the Python function returns `None` on every path). -/
theorem c3_counterexample :
    end_reading_session
      ⟨[⟨1, "Dune", "Frank Herbert", .physical, none, none, none, none, .reading⟩],
       [⟨1, 1, ⟨2023, 1, 1⟩, none, none⟩], [], 2, 2, 1⟩
      ⟨2024, 1, 1⟩ 1 (some "2023-12-25") none false =
    end_reading_session
      ⟨[⟨1, "Dune", "Frank Herbert", .physical, none, none, none, none, .reading⟩],
       [⟨1, 1, ⟨2023, 1, 1⟩, some ⟨2023, 12, 25⟩, none⟩], [], 2, 2, 1⟩
      ⟨2024, 1, 1⟩ 1 (some "2023-12-25") none false ∧
    findFirstOpen [(⟨1, 1, ⟨2023, 1, 1⟩, none, none⟩ : ReadingSession)] 1 ≠ none ∧
    findFirstOpen [(⟨1, 1, ⟨2023, 1, 1⟩, some ⟨2023, 12, 25⟩, none⟩ : ReadingSession)] 1
      = none :=
  ⟨rfl, by decide, rfl⟩

/-- C3 amended: ending a session on a book with no open session, with an
absent or parseable end date, raises nothing and leaves the entire store
(session table and book status included) unchanged; it returns the same
value (`None`) as a successful call, so there is no no-op signal
distinguishable by the caller, who must check for an open session
externally. -/
theorem c3_end_session_noop (s : LibState) (today : Date) (bid : Nat)
    (ds notes : Option String) (c : Bool)
    (hopen : findFirstOpen s.sessions bid = none)
    (hds : ds = none ∨ ∃ str d, ds = some str ∧ parse_date_input str = some d) :
    end_reading_session s today bid ds notes c = .ok s := by
  have hres : ∃ d, resolve_date today ds = .ok d := by
    rcases hds with h | ⟨str, d, hstr, hp⟩
    · exact ⟨today, by simp [h, resolve_date]⟩
    · subst hstr
      by_cases he : str = ""
      · exact ⟨today, by simp [resolve_date, he]⟩
      · exact ⟨d, by simp [resolve_date, he, hp]⟩
  rcases hres with ⟨d, hd⟩
  unfold end_reading_session
  rw [hd, hopen]

/-- Witness for C3 (amended): a store whose only session is closed. -/
theorem c3_witness :
    end_reading_session
      ⟨[⟨1, "Dune", "Frank Herbert", .physical, none, none, none, none, .reading⟩],
       [⟨1, 1, ⟨2023, 1, 1⟩, some ⟨2023, 12, 25⟩, none⟩], [], 2, 2, 1⟩
      ⟨2024, 1, 1⟩ 1 none none false =
    .ok ⟨[⟨1, "Dune", "Frank Herbert", .physical, none, none, none, none, .reading⟩],
         [⟨1, 1, ⟨2023, 1, 1⟩, some ⟨2023, 12, 25⟩, none⟩], [], 2, 2, 1⟩ :=
  c3_end_session_noop
    ⟨[⟨1, "Dune", "Frank Herbert", .physical, none, none, none, none, .reading⟩],
     [⟨1, 1, ⟨2023, 1, 1⟩, some ⟨2023, 12, 25⟩, none⟩], [], 2, 2, 1⟩
    ⟨2024, 1, 1⟩ 1 none none false (by decide) (Or.inl rfl)

/-- C4 counterexample: `add_book` called with empty title and empty author
succeeds and creates the book record (the database's NOT NULL constraint
does not reject empty strings), instead of rejecting the input. -/
theorem c4_counterexample :
    add_book initState "" "" .physical none none none none =
      .ok (⟨[⟨1, "", "", .physical, none, none, none, none, .toRead⟩],
            [], [], 2, 1, 1⟩,
           ⟨1, "", "", .physical, none, none, none, none, .toRead⟩) :=
  rfl

/-- C4 amended: `DatabaseManager.add_book` performs no required-field
validation: a call with empty title and author succeeds and creates the
record with those empty fields.  The empty-title/author rejection is
enforced only by the add-book form (src/ui/screens/add_book.py
`_submit_form`) before the store is called. -/
theorem c4_add_book_no_validation (s : LibState) (bt : BookType)
    (p : Option String) (py pg : Option Int) :
    add_book s "" "" bt none p py pg =
      .ok ({ s with
              books := s.books ++
                [⟨s.next_book_id, "", "", bt, none, p, py, pg, .toRead⟩],
              next_book_id := s.next_book_id + 1 },
           ⟨s.next_book_id, "", "", bt, none, p, py, pg, .toRead⟩) := by
  unfold add_book
  simp

/-- C5: adding a book whose non-null ISBN already belongs to a stored book
fails with the integrity (unique-constraint) error; the failed commit
changes nothing, so the first book and the rest of the store are untouched. -/
theorem c5_duplicate_isbn (s : LibState) (t a : String) (bt : BookType)
    (i : String) (p : Option String) (py pg : Option Int) (b : Book)
    (hb : b ∈ s.books) (hi : b.isbn = some i) :
    add_book s t a bt (some i) p py pg = .error .integrityError ∧
    applyOp s (.addBook t a bt (some i) p py pg) = s := by
  have hc : ((some i : Option String).isSome &&
      s.books.any (fun x => x.isbn == some i)) = true := by
    simp only [Option.isSome_some, Bool.true_and, List.any_eq_true]
    exact ⟨b, hb, by simp [hi]⟩
  constructor
  · unfold add_book
    rw [if_pos hc]
  · simp only [applyOp, add_book]
    rw [if_pos hc]

/-- Witness for C5: a store holding one book with ISBN 978-0441172719. -/
theorem c5_witness :
    add_book
      ⟨[⟨1, "Dune", "Frank Herbert", .physical, some "978-0441172719",
         none, none, none, .toRead⟩], [], [], 2, 1, 1⟩
      "Dune" "F. Herbert" .ebook (some "978-0441172719") none none none =
      .error .integrityError ∧
    applyOp
      ⟨[⟨1, "Dune", "Frank Herbert", .physical, some "978-0441172719",
         none, none, none, .toRead⟩], [], [], 2, 1, 1⟩
      (.addBook "Dune" "F. Herbert" .ebook (some "978-0441172719") none none none) =
      ⟨[⟨1, "Dune", "Frank Herbert", .physical, some "978-0441172719",
         none, none, none, .toRead⟩], [], [], 2, 1, 1⟩ :=
  c5_duplicate_isbn
    ⟨[⟨1, "Dune", "Frank Herbert", .physical, some "978-0441172719",
       none, none, none, .toRead⟩], [], [], 2, 1, 1⟩
    "Dune" "F. Herbert" .ebook "978-0441172719" none none none
    ⟨1, "Dune", "Frank Herbert", .physical, some "978-0441172719",
     none, none, none, .toRead⟩
    (by decide) rfl

/-- C6: the date parser signals failure by returning `none` rather than
raising (it is a total function): empty input, whitespace-only input and
unparseable text all give `none`, and the ISO example parses to the
expected date. -/
theorem c6_parse_contract :
    (∀ s : String, strip s = "" → parse_date_input s = none) ∧
    parse_date_input "" = none ∧
    parse_date_input "2023-12-25" = some ⟨2023, 12, 25⟩ ∧
    parse_date_input "not a date" = none := by
  refine ⟨?_, by decide, by decide, by decide⟩
  intro s hs
  unfold parse_date_input
  rw [hs]
  simp

/-- Witness for C6 at the whitespace-only input. -/
theorem c6_witness : strip "   " = "" ∧ parse_date_input "   " = none :=
  ⟨by decide, c6_parse_contract.1 "   " (by decide)⟩

/-- C7: formatting renders a date as `YYYY-MM-DD (Weekday abbreviation)`
and no date as the empty string; the example 2023-12-25 renders with
abbreviation Mon, and the independent rata-die day count confirms that date
is a Monday (rata die ≡ 1 mod 7, day 1 being Monday 0001-01-01). -/
theorem c7_format_contract :
    format_date_for_display none = "" ∧
    format_date_for_display (some ⟨2023, 12, 25⟩) = "2023-12-25 (Mon)" ∧
    rataDie ⟨2023, 12, 25⟩ % 7 = 1 ∧
    (∀ d : Date, format_date_for_display (some d) =
      pad4 d.year ++ "-" ++ pad2 d.month ++ "-" ++ pad2 d.day ++
        " (" ++ weekdayAbbrev (zellerH d) ++ ")") :=
  ⟨rfl, by decide, by decide, fun d => rfl⟩

theorem find?_of_filter_single {α : Type} (p : α → Bool) (l : List α) (b : α)
    (h : l.filter p = [b]) : l.find? p = some b := by
  induction l with
  | nil => simp at h
  | cons a rs ih =>
    cases ha : p a with
    | true =>
      rw [List.filter_cons, ha] at h
      simp only [if_true, List.cons.injEq] at h
      rw [List.find?_cons, ha, h.1]
    | false =>
      rw [List.filter_cons, ha] at h
      simp only [Bool.false_eq_true, if_false] at h
      rw [List.find?_cons, ha]
      exact ih h

/-- C8: deleting a stored book (the books table holds exactly one row with
that id, its primary key being unique) removes it together with every
reading session and note owned by it — none remain queryable by that id —
and reports true; deleting an absent id returns false, raises nothing, and
changes nothing. -/
theorem c8_delete_book (s : LibState) (bid : Nat) :
    (∀ b, s.books.filter (fun x => x.id == bid) = [b] →
      ∃ s1, delete_book s bid = (s1, true) ∧
        s1.books.filter (fun x => x.id == bid) = [] ∧
        s1.sessions.filter (fun r => r.book_id == bid) = [] ∧
        s1.notes.filter (fun n => n.book_id == bid) = []) ∧
    (s.books.find? (fun x => x.id == bid) = none →
      delete_book s bid = (s, false)) := by
  constructor
  · intro b hfil
    have hfind := find?_of_filter_single _ s.books b hfil
    refine ⟨{ s with
        books := s.books.eraseP (fun x => x.id == bid),
        sessions := s.sessions.filter (fun r => !(r.book_id == bid)),
        notes := s.notes.filter (fun n => !(n.book_id == bid)) }, ?_, ?_, ?_, ?_⟩
    · unfold delete_book
      rw [hfind]
    · exact filter_eraseP_of_single _ s.books b hfil
    · exact filter_not_then_filter _ s.sessions
    · exact filter_not_then_filter _ s.notes
  · intro hnone
    unfold delete_book
    rw [hnone]

/-- Witness for C8: deleting book 1 (present, owning a session and a note)
and deleting book 2 (absent) from a concrete store. -/
theorem c8_witness :
    (∃ s1, delete_book
        ⟨[⟨1, "Dune", "Frank Herbert", .physical, none, none, none, none, .reading⟩],
         [⟨1, 1, ⟨2023, 1, 1⟩, none, none⟩],
         [⟨1, 1, .review, none, "great", none⟩], 2, 2, 2⟩ 1 = (s1, true) ∧
      s1.books.filter (fun x => x.id == 1) = [] ∧
      s1.sessions.filter (fun r => r.book_id == 1) = [] ∧
      s1.notes.filter (fun n => n.book_id == 1) = []) ∧
    delete_book
      ⟨[⟨1, "Dune", "Frank Herbert", .physical, none, none, none, none, .reading⟩],
       [⟨1, 1, ⟨2023, 1, 1⟩, none, none⟩],
       [⟨1, 1, .review, none, "great", none⟩], 2, 2, 2⟩ 2 =
      (⟨[⟨1, "Dune", "Frank Herbert", .physical, none, none, none, none, .reading⟩],
        [⟨1, 1, ⟨2023, 1, 1⟩, none, none⟩],
        [⟨1, 1, .review, none, "great", none⟩], 2, 2, 2⟩, false) :=
  ⟨(c8_delete_book
      ⟨[⟨1, "Dune", "Frank Herbert", .physical, none, none, none, none, .reading⟩],
       [⟨1, 1, ⟨2023, 1, 1⟩, none, none⟩],
       [⟨1, 1, .review, none, "great", none⟩], 2, 2, 2⟩ 1).1
    ⟨1, "Dune", "Frank Herbert", .physical, none, none, none, none, .reading⟩
    (by decide),
   (c8_delete_book
      ⟨[⟨1, "Dune", "Frank Herbert", .physical, none, none, none, none, .reading⟩],
       [⟨1, 1, ⟨2023, 1, 1⟩, none, none⟩],
       [⟨1, 1, .review, none, "great", none⟩], 2, 2, 2⟩ 2).2
    (by decide)⟩

/-- C9: ending the open session of a stored book with completed = true sets
that book's status to Completed and changes none of its other fields (the
result is the same record with only the status replaced); with
completed = false the books table is left entirely unchanged. -/
theorem c9_end_session_completed (s : LibState) (today : Date) (bid : Nat)
    (ds notes : Option String) (d : Date) (r : ReadingSession) (b : Book)
    (hres : resolve_date today ds = .ok d)
    (hopen : findFirstOpen s.sessions bid = some r)
    (hb : s.books.find? (fun x => x.id == bid) = some b) :
    (∃ s1, end_reading_session s today bid ds notes true = .ok s1 ∧
      s1.books.find? (fun x => x.id == bid) =
        some { b with status := .completed }) ∧
    (∃ s1, end_reading_session s today bid ds notes false = .ok s1 ∧
      s1.books = s.books) := by
  constructor
  · refine ⟨{ s with
        sessions := updateFirstOpen s.sessions bid (closeSession d notes),
        books := updateFirstBook s.books bid
          (fun x => { x with status := .completed }) }, ?_, ?_⟩
    · unfold end_reading_session
      rw [hres, hopen]
      rfl
    · exact find?_updateFirstBook s.books bid _ b (fun x => rfl) hb
  · refine ⟨{ s with
        sessions := updateFirstOpen s.sessions bid (closeSession d notes) }, ?_, rfl⟩
    unfold end_reading_session
    rw [hres, hopen]
    rfl

/-- Witness for C9 at a concrete store with one open session. -/
theorem c9_witness :
    (∃ s1, end_reading_session
        ⟨[⟨1, "Dune", "Frank Herbert", .physical, none, none, none, none, .reading⟩],
         [⟨1, 1, ⟨2023, 1, 1⟩, none, none⟩], [], 2, 2, 1⟩
        ⟨2024, 1, 1⟩ 1 (some "2023-12-25") none true = .ok s1 ∧
      s1.books.find? (fun x => x.id == 1) =
        some ⟨1, "Dune", "Frank Herbert", .physical, none, none, none, none,
          .completed⟩) ∧
    (∃ s1, end_reading_session
        ⟨[⟨1, "Dune", "Frank Herbert", .physical, none, none, none, none, .reading⟩],
         [⟨1, 1, ⟨2023, 1, 1⟩, none, none⟩], [], 2, 2, 1⟩
        ⟨2024, 1, 1⟩ 1 (some "2023-12-25") none false = .ok s1 ∧
      s1.books =
        [⟨1, "Dune", "Frank Herbert", .physical, none, none, none, none, .reading⟩]) :=
  c9_end_session_completed
    ⟨[⟨1, "Dune", "Frank Herbert", .physical, none, none, none, none, .reading⟩],
     [⟨1, 1, ⟨2023, 1, 1⟩, none, none⟩], [], 2, 2, 1⟩
    ⟨2024, 1, 1⟩ 1 (some "2023-12-25") none ⟨2023, 12, 25⟩
    ⟨1, 1, ⟨2023, 1, 1⟩, none, none⟩
    ⟨1, "Dune", "Frank Herbert", .physical, none, none, none, none, .reading⟩
    rfl (by decide) (by decide)

/-- C10: starting a session for an id that matches no stored book does not
signal not-found: the call succeeds, inserts a new open session that
references the absent book id, and skips only the book-status update (the
books table is unchanged). -/
theorem c10_start_session_absent_book (s : LibState) (today : Date) (bid : Nat)
    (ds : Option String) (d : Date)
    (hres : resolve_date today ds = .ok d)
    (hb : s.books.find? (fun x => x.id == bid) = none) :
    ∃ s1 ns, start_reading_session s today bid ds = .ok (s1, ns) ∧
      ns.book_id = bid ∧ ns.start_date = d ∧ ns.end_date = none ∧
      ns ∈ s1.sessions ∧ s1.books = s.books := by
  refine ⟨{ s with
      sessions := updateFirstOpen s.sessions bid
          (fun x => { x with end_date := some d }) ++
        [⟨s.next_session_id, bid, d, none, none⟩],
      books := updateFirstBook s.books bid (fun x => { x with status := .reading }),
      next_session_id := s.next_session_id + 1 },
    ⟨s.next_session_id, bid, d, none, none⟩, ?_, rfl, rfl, rfl, ?_, ?_⟩
  · unfold start_reading_session
    rw [hres]
  · exact List.mem_append_right _ (List.mem_singleton.mpr rfl)
  · exact updateFirstBook_of_find?_none s.books bid _ hb

/-- Witness for C10: an empty store and the absent book id 7. -/
theorem c10_witness :
    ∃ s1 ns, start_reading_session initState ⟨2024, 1, 1⟩ 7 (some "2023-12-25") =
        .ok (s1, ns) ∧
      ns.book_id = 7 ∧ ns.start_date = ⟨2023, 12, 25⟩ ∧ ns.end_date = none ∧
      ns ∈ s1.sessions ∧ s1.books = initState.books :=
  c10_start_session_absent_book initState ⟨2024, 1, 1⟩ 7 (some "2023-12-25")
    ⟨2023, 12, 25⟩ rfl (by decide)

example : parse_date_input "2023-12-25" = some ⟨2023, 12, 25⟩ := by decide
example : parse_date_input "" = none := by decide
example : parse_date_input "   " = none := by decide
example : parse_date_input "not a date" = none := by decide
example : format_date_for_display (some ⟨2023, 12, 25⟩) = "2023-12-25 (Mon)" := by decide
example : format_date_for_display none = "" := by decide
example : rataDie ⟨2023, 12, 25⟩ % 7 = 1 := by decide
